import Mathlib

/-!
Verification of the lead-scoring backend (Team A25-CS060).

This file gives a shallow embedding of the backend's CSV ingestion pipeline
(`src/utils/csvParser.js`, `src/utils/customerValidator.js`), the auto-predict
coordination layer (`src/services/autoPredictService.js`,
`src/services/cacheService.js`, `src/services/mlService.js`), the scheduler
(`src/jobs/predictionJob.js`) and the bulk customer insert
(`src/services/customerService.js`), together with theorems checking the
specification's claims about them.

JavaScript dynamic values are modelled by the `JSValue` inductive; machine
floats are modelled by rationals (`ℚ`), with `NaN` as a distinguished
constructor.  External collaborators (the relational store, the ML HTTP
service) are modelled as oracles supplied through an environment record.
-/

set_option maxRecDepth 10000

namespace Backend

/-! ### JavaScript value model -/

/-- A JavaScript runtime value, restricted to the shapes that flow through the
CSV pipeline and validator: strings, finite numbers (as rationals), `NaN`,
booleans, `null` and `undefined`. -/
inductive JSValue where
  | str (s : String)
  | num (q : ℚ)
  | nan
  | boolean (b : Bool)
  | null
  | undefined
deriving DecidableEq, Repr

/-- JavaScript truthiness: `""`, `0`, `NaN`, `false`, `null`, `undefined`
are falsy, everything else truthy. -/
def truthy : JSValue → Bool
  | .str s => s ≠ ""
  | .num q => q ≠ 0
  | .nan => false
  | .boolean b => b
  | .null => false
  | .undefined => false

/-- `typeof v === "number"` (note `NaN` is a number in JavaScript). -/
def typeofNumber : JSValue → Bool
  | .num _ => true
  | .nan => true
  | _ => false

/-- `typeof v === "string"`. -/
def typeofString : JSValue → Bool
  | .str _ => true
  | _ => false

/-- `typeof v === "boolean"`. -/
def typeofBoolean : JSValue → Bool
  | .boolean _ => true
  | _ => false

/-- `isNaN(v)` as applied in the validator / CSV pipeline, where the argument
is always already a number (`.num` or `.nan`). -/
def isNaNjs : JSValue → Bool
  | .nan => true
  | _ => false

/-- `v < c` for a numeric comparison in JavaScript where `v` is a number or
`NaN`; any comparison with `NaN` is false. -/
def ltNum : JSValue → ℚ → Bool
  | .num q, c => Rat.blt q c
  | _, _ => false

/-- `v > c` for a numeric comparison; comparisons with `NaN` are false. -/
def gtNum : JSValue → ℚ → Bool
  | .num q, c => Rat.blt c q
  | _, _ => false

/-! ### JavaScript string primitives

`String.prototype.trim`, `String.prototype.toLowerCase` and
`String.prototype.split` with a single-character separator, implemented over
character lists (restricted to ASCII case folding and the common whitespace
characters, which cover every input the pipeline handles). -/

/-- The whitespace characters stripped by `trim`. -/
def jsWhitespaceChar (c : Char) : Bool :=
  c = ' ' ∨ c = '\t' ∨ c = '\n' ∨ c = '\r' ∨ c = '\x0b' ∨ c = '\x0c'

/-- `s.trim()`. -/
def jsTrim (s : String) : String :=
  String.mk (((s.data.dropWhile jsWhitespaceChar).reverse.dropWhile
    jsWhitespaceChar).reverse)

/-- ASCII lower-casing of one character. -/
def lowerChar (c : Char) : Char :=
  if 'A' ≤ c ∧ c ≤ 'Z' then Char.ofNat (c.toNat + 32) else c

/-- `s.toLowerCase()` (ASCII). -/
def jsToLower (s : String) : String := String.mk (s.data.map lowerChar)

/-- Accumulator pass of `jsSplit`. -/
def splitCharAux (sep : Char) : List Char → List Char → List String
  | [], acc => [String.mk acc.reverse]
  | c :: cs, acc =>
      if c = sep then String.mk acc.reverse :: splitCharAux sep cs []
      else splitCharAux sep cs (c :: acc)

/-- `s.split(sep)` for a one-character separator (`"".split(sep)` is
`[""]`). -/
def jsSplit (sep : Char) (s : String) : List String := splitCharAux sep s.data []

/-! ### Numeric string parsing

These model the decimal-literal fragments of JavaScript's `parseInt`,
`parseFloat` and `Number` that the pipeline exercises (optional sign, digits,
optional fraction).  Exponent notation and non-decimal radix prefixes, which
never occur in this pipeline's inputs of interest, are not modelled. -/

/-- Interpret a list of decimal digit characters as a natural number. -/
def digitsToNat (l : List Char) : Nat :=
  l.foldl (fun n c => n * 10 + (c.toNat - 48)) 0

/-- Scan an unsigned decimal literal (`digits`, `digits.digits`, `digits.`,
`.digits`) from the front of a character list, returning the value and the
unconsumed remainder. -/
def scanDecimal (l : List Char) : Option (ℚ × List Char) :=
  let intPart := l.takeWhile Char.isDigit
  let rest1 := l.dropWhile Char.isDigit
  match rest1 with
  | '.' :: tail =>
      let frac := tail.takeWhile Char.isDigit
      let rest2 := tail.dropWhile Char.isDigit
      if intPart = [] ∧ frac = [] then none
      else
        some (mkRat
          (Int.ofNat (digitsToNat intPart * Nat.pow 10 frac.length + digitsToNat frac))
          (Nat.pow 10 frac.length), rest2)
  | _ =>
      if intPart = [] then none
      else some (mkRat (Int.ofNat (digitsToNat intPart)) 1, rest1)

/-- `scanDecimal` with an optional leading sign. -/
def scanSigned (l : List Char) : Option (ℚ × List Char) :=
  match l with
  | '-' :: rest => (scanDecimal rest).map (fun p => (-p.1, p.2))
  | '+' :: rest => scanDecimal rest
  | _ => scanDecimal l

/-- A full-string signed decimal literal, or `none` if the string is not
exactly a decimal literal. -/
def decimalOfString? (s : String) : Option ℚ :=
  match scanSigned s.data with
  | some (q, []) => some q
  | _ => none

/-- JavaScript `parseFloat` on an (already trimmed) string: parse the longest
signed decimal prefix, `NaN` if there is none. -/
def jsParseFloat (s : String) : JSValue :=
  match scanSigned s.data with
  | some (q, _) => .num q
  | none => .nan

/-- Truncation of a rational toward zero (the effect of `parseInt` on a
finite number after its decimal-string round-trip). -/
def ratTrunc (q : ℚ) : ℚ :=
  mkRat (Int.tdiv q.num (Int.ofNat q.den)) 1

/-- Scan a signed run of leading decimal digits (the integer prefix that
`parseInt` consumes), `none` when no digits are present. -/
def scanIntSigned (l : List Char) : Option ℤ :=
  match l with
  | '-' :: rest =>
      let d := rest.takeWhile Char.isDigit
      if d = [] then none else some (-(Int.ofNat (digitsToNat d)))
  | '+' :: rest =>
      let d := rest.takeWhile Char.isDigit
      if d = [] then none else some (Int.ofNat (digitsToNat d))
  | _ =>
      let d := l.takeWhile Char.isDigit
      if d = [] then none else some (Int.ofNat (digitsToNat d))

/-- JavaScript `parseInt(v)` (radix 10, decimal inputs): numbers truncate
toward zero, strings parse their leading signed digit run, and every other
value (including `null`, `undefined`, booleans and `NaN`) yields `NaN`. -/
def jsParseInt : JSValue → JSValue
  | .num q => .num (ratTrunc q)
  | .str s =>
      match scanIntSigned (jsTrim s).data with
      | some z => .num (mkRat z 1)
      | none => .nan
  | _ => .nan

/-- JavaScript `Number(v)` conversion for the values reaching the validator's
balance check: numbers and `NaN` pass through, booleans become `0`/`1`,
`null` becomes `0`, `undefined` becomes `NaN`, and strings convert via a
full-string decimal parse with `""` (after trimming) converting to `0`. -/
def jsNumber : JSValue → JSValue
  | .num q => .num q
  | .nan => .nan
  | .boolean b => .num (if b then 1 else 0)
  | .null => .num 0
  | .undefined => .nan
  | .str s =>
      let t := jsTrim s
      if t = "" then .num 0
      else match decimalOfString? t with
        | some q => .num q
        | none => .nan

/-! ### Record (JavaScript object) model

CSV records and customer-data objects are dynamic string-keyed objects; they
are modelled as association lists preserving key insertion order, matching
JavaScript object-key enumeration order for string keys. -/

/-- A JavaScript object with string keys, as an insertion-ordered
association list. -/
abbrev JSRecord := List (String × JSValue)

/-- Property read `r[k]`: `undefined` when the key is absent. -/
def getField (r : JSRecord) (k : String) : JSValue :=
  (r.lookup k).getD .undefined

/-- The `k in r` operator: key presence. -/
def hasKey (r : JSRecord) (k : String) : Bool :=
  (r.lookup k).isSome

/-- `Object.keys(r)`. -/
def recordKeys (r : JSRecord) : List String :=
  r.map (·.1)

/-- Property write (as performed by object spread literals): an existing key
is updated in place, a new key is appended at the end. -/
def setField (r : JSRecord) (k : String) (v : JSValue) : JSRecord :=
  if (r.lookup k).isSome then
    r.map (fun p => if p.1 = k then (k, v) else p)
  else r ++ [(k, v)]

/-! ### Customer data validator (`src/utils/customerValidator.js`) -/

/-- `VALID_JOBS`. -/
def VALID_JOBS : List String :=
  ["admin.", "blue-collar", "entrepreneur", "housemaid", "management", "retired",
   "self-employed", "services", "student", "technician", "unemployed", "unknown"]

/-- `VALID_MARITAL`. -/
def VALID_MARITAL : List String := ["divorced", "married", "single", "unknown"]

/-- `VALID_EDUCATION`. -/
def VALID_EDUCATION : List String :=
  ["basic.4y", "basic.6y", "basic.9y", "high.school", "illiterate",
   "professional.course", "university.degree", "unknown", "primary", "secondary",
   "tertiary"]

/-- `VALID_CONTACT`. -/
def VALID_CONTACT : List String := ["cellular", "telephone", "unknown"]

/-- `VALID_MONTHS`. -/
def VALID_MONTHS : List String :=
  ["jan", "feb", "mar", "apr", "may", "jun", "jul", "aug", "sep", "oct", "nov", "dec"]

/-- `VALID_DAYS`. -/
def VALID_DAYS : List String := ["mon", "tue", "wed", "thu", "fri"]

/-- `VALID_POUTCOME`. -/
def VALID_POUTCOME : List String := ["failure", "nonexistent", "success", "unknown"]

/-- `list.includes(v)` on a list of strings against a dynamic value: only a
string can compare equal. -/
def jsIncludes (l : List String) (v : JSValue) : Bool :=
  match v with
  | .str s => l.contains s
  | _ => false

/-- `v.trim() === ""` guarded by `typeof v === "string"`. -/
def strTrimEmpty : JSValue → Bool
  | .str s => jsTrim s = ""
  | _ => false

/-- `normalizeEmpty`: for partial validation, `""` and `null` collapse to
`undefined` so absent fields do not trigger required-field errors. -/
def normalizeEmpty (isPartial : Bool) (v : JSValue) : JSValue :=
  if isPartial ∧ (v = .str "" ∨ v = .null) then .undefined else v

/-- The validator's `d.field` access: field read after `normalizeEmpty`
(applied to the eight string-valued fields of `normalizedData`). -/
def nv (isPartial : Bool) (data : JSRecord) (k : String) : JSValue :=
  normalizeEmpty isPartial (getField data k)

/-- Name validation errors. -/
def nameErrors (isPartial : Bool) (data : JSRecord) : List String :=
  let v := nv isPartial data "name"
  if ¬isPartial then
    if ¬truthy v ∨ (typeofString v ∧ strTrimEmpty v) then ["Name is required"]
    else if ¬typeofString v then ["Name must be a string"]
    else []
  else if v ≠ .undefined then
    if v = .str "" ∨ (typeofString v ∧ strTrimEmpty v) then ["Name cannot be empty"]
    else if ¬typeofString v then ["Name must be a string"]
    else []
  else []

/-- Age validation errors. -/
def ageErrors (isPartial : Bool) (data : JSRecord) : List String :=
  let v := getField data "age"
  if ¬isPartial then
    if ¬truthy v then ["Age is required"]
    else if ¬typeofNumber v ∨ ltNum v 18 ∨ gtNum v 100 then
      ["Age must be a number between 18 and 100"]
    else []
  else if v ≠ .undefined then
    if ¬typeofNumber v ∨ ltNum v 18 ∨ gtNum v 100 then
      ["Age must be a number between 18 and 100"]
    else []
  else []

/-- Shared shape of the six enumerated-field checks (job, marital, education,
contact, month, day_of_week): required when not partial, membership in a fixed
list of valid values otherwise. -/
def enumFieldErrors (isPartial : Bool) (v : JSValue) (valid : List String)
    (requiredMsg oneOfMsg : String) : List String :=
  if ¬isPartial then
    if ¬truthy v then [requiredMsg]
    else if ¬jsIncludes valid v then [oneOfMsg]
    else []
  else if v ≠ .undefined then
    if ¬jsIncludes valid v then [oneOfMsg]
    else []
  else []

/-- Job validation errors. -/
def jobErrors (isPartial : Bool) (data : JSRecord) : List String :=
  enumFieldErrors isPartial (nv isPartial data "job") VALID_JOBS
    "Job is required" ("Job must be one of: " ++ String.intercalate ", " VALID_JOBS)

/-- Marital-status validation errors. -/
def maritalErrors (isPartial : Bool) (data : JSRecord) : List String :=
  enumFieldErrors isPartial (nv isPartial data "marital") VALID_MARITAL
    "Marital status is required"
    ("Marital status must be one of: " ++ String.intercalate ", " VALID_MARITAL)

/-- Education validation errors. -/
def educationErrors (isPartial : Bool) (data : JSRecord) : List String :=
  enumFieldErrors isPartial (nv isPartial data "education") VALID_EDUCATION
    "Education is required"
    ("Education must be one of: " ++ String.intercalate ", " VALID_EDUCATION)

/-- Contact-type validation errors. -/
def contactErrors (isPartial : Bool) (data : JSRecord) : List String :=
  enumFieldErrors isPartial (nv isPartial data "contact") VALID_CONTACT
    "Contact type is required"
    ("Contact must be one of: " ++ String.intercalate ", " VALID_CONTACT)

/-- Month validation errors. -/
def monthErrors (isPartial : Bool) (data : JSRecord) : List String :=
  enumFieldErrors isPartial (nv isPartial data "month") VALID_MONTHS
    "Month is required" ("Month must be one of: " ++ String.intercalate ", " VALID_MONTHS)

/-- Day-of-week validation errors. -/
def dayOfWeekErrors (isPartial : Bool) (data : JSRecord) : List String :=
  enumFieldErrors isPartial (nv isPartial data "day_of_week") VALID_DAYS
    "Day of week is required"
    ("Day of week must be one of: " ++ String.intercalate ", " VALID_DAYS)

/-- Previous-outcome validation errors (optional field: checked only when
neither `undefined` nor `null`). -/
def poutcomeErrors (isPartial : Bool) (data : JSRecord) : List String :=
  let v := nv isPartial data "poutcome"
  if v ≠ .undefined ∧ v ≠ .null then
    if ¬jsIncludes VALID_POUTCOME v then
      ["Previous outcome must be one of: " ++ String.intercalate ", " VALID_POUTCOME]
    else []
  else []

/-- `data.default !== undefined ? data.default : data.has_default` — CSV field
name with API-format fallback. -/
def csvOrApiField (data : JSRecord) (csvName apiName : String) : JSValue :=
  if getField data csvName ≠ .undefined then getField data csvName
  else getField data apiName

/-- Shared shape of the three boolean-flag checks. -/
def boolFieldErrors (isPartial : Bool) (v : JSValue) (msg : String) : List String :=
  if ¬isPartial ∨ v ≠ .undefined then
    if v ≠ .undefined ∧ ¬typeofBoolean v then [msg] else []
  else []

/-- `default` flag validation errors. -/
def defaultFlagErrors (isPartial : Bool) (data : JSRecord) : List String :=
  boolFieldErrors isPartial (csvOrApiField data "default" "has_default")
    "default must be a boolean"

/-- `housing` flag validation errors. -/
def housingFlagErrors (isPartial : Bool) (data : JSRecord) : List String :=
  boolFieldErrors isPartial (csvOrApiField data "housing" "has_housing_loan")
    "housing must be a boolean"

/-- `loan` flag validation errors. -/
def loanFlagErrors (isPartial : Bool) (data : JSRecord) : List String :=
  boolFieldErrors isPartial (csvOrApiField data "loan" "has_personal_loan")
    "loan must be a boolean"

/-- Legacy API field-name check: error when present and not boolean. -/
def legacyBoolErrors (data : JSRecord) (k msg : String) : List String :=
  let v := getField data k
  if v ≠ .undefined ∧ ¬typeofBoolean v then [msg] else []

/-- Shared shape of the three bounded numeric checks (campaign, pdays,
previous), run on the original `data` whenever the field is present. -/
def rangeFieldErrors (data : JSRecord) (k : String) (lo hi : ℚ) (msg : String) :
    List String :=
  let v := getField data k
  if v ≠ .undefined then
    if ¬typeofNumber v ∨ ltNum v lo ∨ gtNum v hi then [msg] else []
  else []

/-- Balance validation errors (optional field): when present and neither
`null` nor `""`, its `Number(...)` conversion must not be `NaN`. -/
def balanceErrors (data : JSRecord) : List String :=
  let b := getField data "balance"
  if b ≠ .undefined ∧ b ≠ .null ∧ b ≠ .str "" then
    let balanceNum := if typeofNumber b then b else jsNumber b
    if isNaNjs balanceNum then ["Balance must be a valid number"] else []
  else []

/-- Validation verdict: overall flag plus collected error messages. -/
structure ValidationResult where
  isValid : Bool
  errors : List String
deriving DecidableEq, Repr

/-- `validateCustomerData(data, isPartial)`: runs every field check in source
order and collects the error messages; valid iff no error was pushed. -/
def validateCustomerData (data : JSRecord) (isPartial : Bool := false) :
    ValidationResult :=
  let errors :=
    nameErrors isPartial data ++
    ageErrors isPartial data ++
    jobErrors isPartial data ++
    maritalErrors isPartial data ++
    educationErrors isPartial data ++
    contactErrors isPartial data ++
    monthErrors isPartial data ++
    dayOfWeekErrors isPartial data ++
    poutcomeErrors isPartial data ++
    defaultFlagErrors isPartial data ++
    housingFlagErrors isPartial data ++
    loanFlagErrors isPartial data ++
    legacyBoolErrors data "has_default" "has_default must be a boolean" ++
    legacyBoolErrors data "has_housing_loan" "has_housing_loan must be a boolean" ++
    legacyBoolErrors data "has_personal_loan" "has_personal_loan must be a boolean" ++
    rangeFieldErrors data "campaign" 1 100 "Campaign must be a number between 1 and 100" ++
    rangeFieldErrors data "pdays" 0 999 "Pdays must be a number between 0 and 999" ++
    rangeFieldErrors data "previous" 0 100 "Previous must be a number between 0 and 100" ++
    balanceErrors data
  ⟨errors = [], errors⟩

/-! ### CSV ingestion pipeline (`src/utils/csvParser.js`)

`parseCSV` delegates to the `csv-parse/sync` library with options
`columns: true, skip_empty_lines: true, trim: true, cast: true,
relax_column_count: true`.  The library is modelled here for simple CSV
input (no quoted fields, which never occur in the pipeline's template or in
the claims): the first non-empty line is the header, cells are split on
commas and trimmed, numeric-looking cells are cast to numbers, and rows
shorter than the header simply omit the trailing keys. -/

/-- `REQUIRED_COLUMNS`. -/
def REQUIRED_COLUMNS : List String :=
  ["name", "age", "job", "marital", "education", "default", "housing", "loan",
   "contact", "month", "day_of_week", "campaign", "pdays", "previous", "poutcome"]

/-- `OPTIONAL_COLUMNS`. -/
def OPTIONAL_COLUMNS : List String := ["balance"]

/-- The library's `cast: true` on a (trimmed) cell: a full decimal literal
becomes a number, everything else stays a string. -/
def castCell (s : String) : JSValue :=
  match decimalOfString? s with
  | some q => .num q
  | none => .str s

/-- Split one CSV line into trimmed cells (`trim: true`). -/
def parseLine (line : String) : List String :=
  (jsSplit ',' line).map jsTrim

/-- The header row of a CSV text: the trimmed cells of its first non-blank
line (`skip_empty_lines: true`). -/
def headerCols (text : String) : List String :=
  match (jsSplit '\n' text).filter (fun l => jsTrim l ≠ "") with
  | [] => []
  | header :: _ => parseLine header

/-- Core of the `csv-parse` call: header keys zipped against each data row's
cast cells (`columns: true`; `relax_column_count: true` lets short rows drop
trailing keys). -/
def parseCSVRaw (text : String) : List JSRecord :=
  match (jsSplit '\n' text).filter (fun l => jsTrim l ≠ "") with
  | [] => []
  | header :: dataLines =>
      let cols := parseLine header
      dataLines.map (fun line =>
        (cols.zip (parseLine line)).map (fun p => (p.1, castCell p.2)))

/-- The per-record normalization inside `parseCSV`: ensure all optional
columns exist (set to empty string if missing). -/
def ensureOptionalColumns (record : JSRecord) : JSRecord :=
  OPTIONAL_COLUMNS.foldl
    (fun r col => if hasKey r col then r else r ++ [(col, .str "")]) record

/-- `parseCSV`: parse, then ensure every optional column exists on every
record (`""` when missing). -/
def parseCSV (text : String) : List JSRecord :=
  (parseCSVRaw text).map ensureOptionalColumns

/-- Result of `validateCSVStructure`. -/
structure StructureResult where
  isValid : Bool
  error : Option String
deriving DecidableEq, Repr

/-- The missing-columns message text. -/
def missingColumnsMsg (missing : List String) : String :=
  "Missing required columns: " ++ String.intercalate ", " missing

/-- The required columns absent from a record's key set. -/
def missingColumnsOf (first : JSRecord) : List String :=
  REQUIRED_COLUMNS.filter (fun col => ¬ (recordKeys first).contains col)

/-- `validateCSVStructure`: empty-file error when no records parsed,
otherwise every required column must appear among the first record's keys. -/
def validateCSVStructure (records : List JSRecord) : StructureResult :=
  match records with
  | [] => ⟨false, some "CSV file is empty"⟩
  | first :: _ =>
      let missingColumns := missingColumnsOf first
      if missingColumns ≠ [] then ⟨false, some (missingColumnsMsg missingColumns)⟩
      else ⟨true, none⟩

/-- `convertToBoolean`: case-insensitive `true/1/yes` and `false/0/no` for
strings, identity for booleans, `=== 1` for numbers, `false` otherwise. -/
def convertToBoolean (v : JSValue) : Bool :=
  match v with
  | .boolean b => b
  | .str s =>
      let lowerValue := jsTrim (jsToLower s)
      if lowerValue = "true" ∨ lowerValue = "1" ∨ lowerValue = "yes" then true
      else if lowerValue = "false" ∨ lowerValue = "0" ∨ lowerValue = "no" then false
      else false
  | .num q => q = 1
  | _ => false

/-- The per-row balance coercion of `validateCSVRecords` (lines 113–137):
numbers pass through (`NaN` to 0), a missing/`null`/`undefined` balance stays
0, and other values stringify, are screened against
`""`/`"null"`/`"undefined"`/`"NaN"`, and are parsed with `parseFloat`
(defaulting to 0 on `NaN`).  Total: every input coerces to a finite number. -/
def coerceBalance (record : JSRecord) : ℚ :=
  if hasKey record "balance" then
    match getField record "balance" with
    | .num q => q
    | .nan => 0
    | .null => 0
    | .undefined => 0
    | .str s =>
        let balanceStr := jsTrim s
        if balanceStr ≠ "" ∧ balanceStr ≠ "null" ∧ balanceStr ≠ "undefined" ∧
            balanceStr ≠ "NaN" then
          match jsParseFloat balanceStr with
          | .num q => q
          | _ => 0
        else 0
    | .boolean b =>
        -- `String(balance).trim()` on a boolean is "true"/"false", which is not
        -- screened out, and `parseFloat` of it is `NaN`, defaulting to 0.
        let balanceStr := if b then "true" else "false"
        if balanceStr ≠ "" ∧ balanceStr ≠ "null" ∧ balanceStr ≠ "undefined" ∧
            balanceStr ≠ "NaN" then
          match jsParseFloat balanceStr with
          | .num q => q
          | _ => 0
        else 0
  else 0

/-- The `processedRecord` spread literal: the original record with name kept,
balance coerced, the three flags booleanised and the four numeric fields
`parseInt`ed. -/
def processRecord (record : JSRecord) : JSRecord :=
  let r := setField record "name" (getField record "name")
  let r := setField r "balance" (.num (coerceBalance record))
  let r := setField r "default" (.boolean (convertToBoolean (getField record "default")))
  let r := setField r "housing" (.boolean (convertToBoolean (getField record "housing")))
  let r := setField r "loan" (.boolean (convertToBoolean (getField record "loan")))
  let r := setField r "age" (jsParseInt (getField record "age"))
  let r := setField r "campaign" (jsParseInt (getField record "campaign"))
  let r := setField r "pdays" (jsParseInt (getField record "pdays"))
  setField r "previous" (jsParseInt (getField record "previous"))

/-- A valid row: the processed record plus its 1-based file row number. -/
structure ValidEntry where
  data : JSRecord
  row : Nat
deriving DecidableEq, Repr

/-- An invalid row: row number, original record, error messages. -/
structure InvalidEntry where
  row : Nat
  data : JSRecord
  errors : List String
deriving DecidableEq, Repr

/-- Result of `validateCSVRecords`. -/
structure CSVRecordsResult where
  valid : List ValidEntry
  invalid : List InvalidEntry
  totalRecords : Nat
deriving DecidableEq, Repr

/-- The `records.forEach` loop body of `validateCSVRecords`, with `idx` the
zero-based index of the first record in `records` (row number `idx + 2`
accounts for the header on line 1). -/
def classifyRecords : List JSRecord → Nat → List ValidEntry × List InvalidEntry
  | [], _ => ([], [])
  | record :: rest, idx =>
      let rowNumber := idx + 2
      let processed := processRecord record
      let validation := validateCustomerData processed false
      let (vs, ivs) := classifyRecords rest (idx + 1)
      if validation.isValid then (⟨processed, rowNumber⟩ :: vs, ivs)
      else (vs, ⟨rowNumber, record, validation.errors⟩ :: ivs)

/-- `validateCSVRecords`: classify every record independently into the valid
or invalid list. -/
def validateCSVRecords (records : List JSRecord) : CSVRecordsResult :=
  let (vs, ivs) := classifyRecords records 0
  ⟨vs, ivs, records.length⟩

/-- `generateCSVTemplate`: header of all columns plus three example rows. -/
def generateCSVTemplate : String :=
  let allColumns := REQUIRED_COLUMNS ++ OPTIONAL_COLUMNS
  let header := String.intercalate "," allColumns
  let example1 :=
    "John Doe,30,technician,married,secondary,false,true,false,cellular,may,mon,2,999,0,unknown,1500.50"
  let example2 :=
    "Jane Smith,45,management,single,tertiary,false,false,false,telephone,jun,fri,1,999,0,success,2500.75"
  let example3 :=
    "Bob Johnson,38,admin.,divorced,secondary,false,true,false,cellular,may,wed,3,999,0,nonexistent,850.25"
  header ++ "\n" ++ example1 ++ "\n" ++ example2 ++ "\n" ++ example3

/-- Result of `parseAndValidateCSV`.  `rowValidationRan` instruments whether
step 3 (`validateCSVRecords`) executed, for the claims about structural
failures aborting before row validation. -/
structure ParseAndValidateResult where
  success : Bool
  error : Option String
  data : Option CSVRecordsResult
  rowValidationRan : Bool
deriving DecidableEq, Repr

/-- `parseAndValidateCSV`: parse, abort with the structural error if
structure validation fails, otherwise run row validation. -/
def parseAndValidateCSV (text : String) : ParseAndValidateResult :=
  let records := parseCSV text
  let structureValidation := validateCSVStructure records
  if ¬structureValidation.isValid then
    ⟨false, structureValidation.error, none, false⟩
  else
    let recordsValidation := validateCSVRecords records
    ⟨true, none, some recordsValidation, true⟩

/-! ### Cache store (`src/services/cacheService.js`)

The `node-cache` instance is a single string-keyed map; prediction entries,
pending markers and the auto-predict status record share it under the key
prefixes `prediction_`, `pending_` and the fixed key `auto_predict_status`.
TTLs only govern expiry over wall-clock time, which no claim exercises, so
they are not carried in the state.  The status record's `lastRun` timestamp
is likewise dropped (it is never read by the verified code paths). -/

/-- A prediction result as cached / returned by the coordinator. -/
structure PredictionResult where
  customerId : Nat
  probability : ℚ
  willSubscribe : Bool
  modelVersion : String
  predictedAt : Nat
  fromCache : Bool
deriving DecidableEq, Repr

/-- A value stored in the shared cache map. -/
inductive CacheValue where
  | predVal (p : PredictionResult)
  | boolVal (b : Bool)
  | statusVal (status : String)
deriving DecidableEq, Repr

/-- The cache store: an insertion-ordered map from string keys to values. -/
abbrev CacheState := List (String × CacheValue)

/-- `cache.set(k, v)`: upsert. -/
def cacheSet (m : CacheState) (k : String) (v : CacheValue) : CacheState :=
  (k, v) :: m.filter (fun e => e.1 ≠ k)

/-- `cache.del(k)`. -/
def cacheDel (m : CacheState) (k : String) : CacheState :=
  m.filter (fun e => e.1 ≠ k)

/-- `cache.get(k)`. -/
def cacheGet (m : CacheState) (k : String) : Option CacheValue :=
  m.lookup k

/-- The `prediction_${customerId}` key. -/
def predKey (customerId : Nat) : String := "prediction_" ++ toString customerId

/-- The `pending_${customerId}` key. -/
def pendingKey (customerId : Nat) : String := "pending_" ++ toString customerId

/-- `getCachedPrediction`: the cached prediction object or `null`. -/
def getCachedPrediction (m : CacheState) (customerId : Nat) : Option PredictionResult :=
  match cacheGet m (predKey customerId) with
  | some (.predVal p) => some p
  | _ => none

/-- `setCachedPrediction` (TTL argument dropped, see section comment). -/
def setCachedPrediction (m : CacheState) (customerId : Nat) (p : PredictionResult) :
    CacheState :=
  cacheSet m (predKey customerId) (.predVal p)

/-- `setAutoPredictStatus`: unexpiring singleton status record. -/
def setAutoPredictStatus (m : CacheState) (status : String) : CacheState :=
  cacheSet m "auto_predict_status" (.statusVal status)

/-- `markPendingPrediction`: sets the `pending_` marker (10-minute TTL in the
source; TTLs not modelled). -/
def markPendingPrediction (m : CacheState) (customerId : Nat) : CacheState :=
  cacheSet m (pendingKey customerId) (.boolVal true)

/-- `isPendingPrediction`: `cache.get(key) === true`. -/
def isPendingPrediction (m : CacheState) (customerId : Nat) : Bool :=
  cacheGet m (pendingKey customerId) = some (.boolVal true)

/-- `removePendingPrediction`. -/
def removePendingPrediction (m : CacheState) (customerId : Nat) : CacheState :=
  cacheDel m (pendingKey customerId)

/-! ### Scoring gateway (`src/services/mlService.js`)

The HTTP client (`mlClient`) is an oracle: each endpoint's outcome is a
field of the environment.  The request-payload construction (a pure field
relabelling of the customer record) feeds only the opaque HTTP call and is
folded into the oracle, since no claim depends on payload contents. -/

/-- A customer row as returned by the relational store.  Only the `id`
column steers the verified control flow (feature columns feed the opaque
gateway payload), so the remaining attributes are not carried. -/
structure Customer where
  id : Nat
deriving DecidableEq, Repr

/-- An axios-style HTTP failure: optional error code (`ECONNREFUSED`,
`ETIMEDOUT`, …), message, and optional response-body message. -/
structure HttpError where
  code : Option String
  message : String
  responseMessage : Option String
deriving DecidableEq, Repr

/-- One item of the `/predict/batch` wire response. -/
structure WirePrediction where
  probability : ℚ
  prediction : Bool
  model_version : Option String
  error : Option String
deriving DecidableEq, Repr

/-- A single-prediction result returned by `predictCustomer`. -/
structure MLPrediction where
  probability : ℚ
  willSubscribe : Bool
  modelVersion : String
deriving DecidableEq, Repr

/-- One item of `batchPredict`'s return value. -/
structure BatchItem where
  probability : ℚ
  willSubscribe : Bool
  modelVersion : String
  error : Option String
deriving DecidableEq, Repr

/-- A row of the `predictions` table as returned by `createPrediction`'s
`RETURNING *`. -/
structure SavedPrediction where
  customer_id : Nat
  probability_score : ℚ
  will_subscribe : Bool
  model_version : String
  predicted_at : Nat
deriving DecidableEq, Repr

/-- `v || dflt` on an optional wire string: `undefined`/`null` and `""` are
falsy and select the default. -/
def strOrDefault (v : Option String) (dflt : String) : String :=
  match v with
  | some s => if s = "" then dflt else s
  | none => dflt

/-- `pred.error || null`: an absent or empty error string collapses to
`null` (`none`); a non-empty one is kept. -/
def errOrNull (v : Option String) : Option String :=
  match v with
  | some s => if s = "" then none else some s
  | none => none

/-- `batchPredict`'s per-item response mapping. -/
def transformWirePrediction (pred : WirePrediction) : BatchItem :=
  { probability := pred.probability
    willSubscribe := pred.prediction
    modelVersion := strOrDefault pred.model_version "1.0"
    error := errOrNull pred.error }

/-- The environment of oracles: outcomes of the external HTTP and database
calls the coordination layer makes. -/
structure Env where
  /-- Outcome of `mlClient.get('/health')` (response body abstracted). -/
  healthResp : Except HttpError Unit
  /-- Rows returned by `getCustomersWithoutPredictions(limit)`. -/
  customersWithoutPredictions : Nat → List Customer
  /-- Row returned by `getCustomerById(id)` (`none` when not found). -/
  getCustomerById : Nat → Option Customer
  /-- Outcome of `predictCustomer(customer)` — the single-item gateway call,
  with its error-message mapping already applied. -/
  predictOne : Customer → Except String MLPrediction
  /-- Outcome of `mlClient.post('/predict/batch', …)` for a customer set:
  the wire `predictions` array, or the HTTP failure. -/
  batchResp : List Customer → Except HttpError (List WirePrediction)
  /-- Outcome of `createPrediction({customerId, …})` — the INSERT's returned
  row, or a database error message. -/
  createPred : Nat → MLPrediction → Except String SavedPrediction

/-- Result of `checkMLServiceHealth`. -/
structure HealthResult where
  status : String
  message : String
deriving DecidableEq, Repr

/-- `checkMLServiceHealth`: never throws; `status: 'OK'` when the `/health`
call succeeds, `status: 'ERROR'` when it fails. -/
def checkMLServiceHealth (env : Env) : HealthResult :=
  match env.healthResp with
  | .ok _ => ⟨"OK", "ML Service is running"⟩
  | .error _ => ⟨"ERROR", "ML Service is not available"⟩

/-- The catch-block error-message mapping shared by `predictCustomer` and
`batchPredict`: connection failures become the service-unavailable message,
anything else is wrapped with the given prefix. -/
def mlErrorMessage (prefixMsg : String) (e : HttpError) : String :=
  if e.code = some "ECONNREFUSED" ∨ e.code = some "ETIMEDOUT" then
    "ML Service is not available. Please make sure the ML service is running."
  else prefixMsg ++ (e.responseMessage.getD e.message)

/-- `batchPredict`: maps the wire response items positionally; a whole-call
HTTP failure is re-thrown with the mapped message. -/
def batchPredict (env : Env) (customersData : List Customer) :
    Except String (List BatchItem) :=
  match env.batchResp customersData with
  | .ok preds => .ok (preds.map transformWirePrediction)
  | .error e => .error (mlErrorMessage "Batch prediction failed: " e)

/-! ### Auto-predict coordinator (`src/services/autoPredictService.js`)

Effectful code is embedded as explicit state passing over the cache state,
returning alongside each result the trace of external-call effects issued,
so that claims of the form "does not query the store" / "persists nothing"
are directly statable. -/

/-- `AUTO_PREDICT_BATCH_SIZE` (default 50; the environment-variable override
is not modelled). -/
def BATCH_SIZE : Nat := 50

/-- An external call issued by the coordinator. -/
inductive Effect where
  | healthProbe
  | queryCustomersWithoutPredictions (limit : Nat)
  | dbGetCustomer (id : Nat)
  | gatewaySingle (id : Nat)
  | gatewayBatch (count : Nat)
  | persistPrediction (customerId : Nat)
deriving DecidableEq, Repr

/-- Outcome of `predictSingleWithCache`: a returned prediction result, the
early `{pending: true}` return, or a thrown error. -/
inductive SingleOutcome where
  | ok (r : PredictionResult)
  | pendingRet
  | err (msg : String)
deriving DecidableEq, Repr

/-- Whether a `predictSingleWithCache` outcome is a thrown error. -/
def SingleOutcome.isErr : SingleOutcome → Bool
  | .err _ => true
  | _ => false

/-- The `try` body of `predictSingleWithCache` (everything before the
`catch`): cache check, pending check, pending mark, customer fetch, gateway
call, persist, cache write, pending clear. -/
def predictSingleBody (env : Env) (st : CacheState) (customerId : Nat)
    (forceRefresh : Bool) : SingleOutcome × CacheState × List Effect :=
  -- Check cache first (unless force refresh)
  match if forceRefresh then none else getCachedPrediction st customerId with
  | some cached => (.ok { cached with fromCache := true }, st, [])
  | none =>
    -- Check if already pending
    if isPendingPrediction st customerId then (.pendingRet, st, [])
    else
      -- Mark as pending
      let st1 := markPendingPrediction st customerId
      match env.getCustomerById customerId with
      | none =>
          (.err ("Customer " ++ toString customerId ++ " not found"),
           removePendingPrediction st1 customerId, [.dbGetCustomer customerId])
      | some customer =>
        match env.predictOne customer with
        | .error e =>
            (.err e, st1, [.dbGetCustomer customerId, .gatewaySingle customer.id])
        | .ok prediction =>
          match env.createPred customer.id prediction with
          | .error e =>
              (.err e, st1,
               [.dbGetCustomer customerId, .gatewaySingle customer.id,
                .persistPrediction customer.id])
          | .ok savedPrediction =>
            let result : PredictionResult :=
              { customerId := customer.id
                probability := savedPrediction.probability_score
                willSubscribe := savedPrediction.will_subscribe
                modelVersion := savedPrediction.model_version
                predictedAt := savedPrediction.predicted_at
                fromCache := false }
            let st2 := setCachedPrediction st1 customerId result
            let st3 := removePendingPrediction st2 customerId
            (.ok result, st3,
             [.dbGetCustomer customerId, .gatewaySingle customer.id,
              .persistPrediction customer.id])

/-- `predictSingleWithCache(customerId, forceRefresh)`: the body wrapped in
the `catch` block, which removes the pending marker (again — a no-op on the
not-found path, where the body already removed it) before re-throwing. -/
def predictSingleWithCache (env : Env) (st : CacheState) (customerId : Nat)
    (forceRefresh : Bool := false) : SingleOutcome × CacheState × List Effect :=
  let (r, st', tr) := predictSingleBody env st customerId forceRefresh
  match r with
  | .err msg => (.err msg, removePendingPrediction st' customerId, tr)
  | _ => (r, st', tr)

/-- The sweep summary object.  `skipped` starts as the number `0` and is
overwritten by the boolean `true` on the health-check skip path, so it is
carried as a dynamic value; `reason` and `error` are only present on the
skip / top-level-error paths. -/
structure Summary where
  total : Nat := 0
  success : Nat := 0
  failed : Nat := 0
  skipped : JSValue := .num 0
  errors : List (Nat × String) := []
  reason : Option String := none
  error : Option String := none
deriving DecidableEq, Repr

/-- The save loop over positional batch results (`for (let i = 0; …)`).
Returns `none` when a positional prediction is missing (`predictions[i]` is
`undefined`, so reading `.error` raises a `TypeError` caught by the sweep's
top-level handler), together with the summary / state / trace at that point. -/
def batchSaveLoop (env : Env) :
    List Customer → List BatchItem → Summary → CacheState → List Effect →
    Option (Summary × CacheState × List Effect) × Summary × CacheState × List Effect
  | [], _, s, st, tr => (some (s, st, tr), s, st, tr)
  | _ :: _, [], s, st, tr => (none, s, st, tr)
  | customer :: cs, prediction :: ps, s, st, tr =>
    match prediction.error with
    | some e =>
        batchSaveLoop env cs ps
          { s with failed := s.failed + 1, errors := s.errors ++ [(customer.id, e)] }
          st tr
    | none =>
      match env.createPred customer.id
          { probability := prediction.probability
            willSubscribe := prediction.willSubscribe
            modelVersion := prediction.modelVersion } with
      | .ok savedPrediction =>
          let st' := setCachedPrediction st customer.id
            { customerId := customer.id
              probability := savedPrediction.probability_score
              willSubscribe := savedPrediction.will_subscribe
              modelVersion := savedPrediction.model_version
              predictedAt := savedPrediction.predicted_at
              fromCache := false }
          batchSaveLoop env cs ps { s with success := s.success + 1 } st'
            (tr ++ [.persistPrediction customer.id])
      | .error dbError =>
          batchSaveLoop env cs ps
            { s with failed := s.failed + 1,
                     errors := s.errors ++ [(customer.id, dbError)] }
            st (tr ++ [.persistPrediction customer.id])

/-- The sequential fallback loop run when the batch call throws: every
customer goes through the forced single-customer cached path; a non-throwing
call counts as a success, a throwing one as a failure with its message
recorded. -/
def fallbackLoop (env : Env) :
    List Customer → Summary → CacheState → List Effect →
    Summary × CacheState × List Effect
  | [], s, st, tr => (s, st, tr)
  | customer :: cs, s, st, tr =>
    let (r, st', tr') := predictSingleWithCache env st customer.id true
    match r with
    | .err msg =>
        fallbackLoop env cs
          { s with failed := s.failed + 1, errors := s.errors ++ [(customer.id, msg)] }
          st' (tr ++ tr')
    | _ =>
        fallbackLoop env cs { s with success := s.success + 1 } st' (tr ++ tr')

/-- `autoPredictNewCustomers` (`runAutoPredictSweep`): health pre-flight,
scan for unscored customers, batch scoring with positional save and
single-path fallback, single-customer path for a one-element scan, status
record maintenance throughout.  Returns the summary, the final cache state
and the trace of external calls. -/
def autoPredictNewCustomers (env : Env) (st0 : CacheState) :
    Summary × CacheState × List Effect :=
  let st := setAutoPredictStatus st0 "running"
  -- Check ML service health first
  let mlHealth := checkMLServiceHealth env
  let tr0 : List Effect := [.healthProbe]
  if mlHealth.status ≠ "OK" then
    ({ skipped := .boolean true, reason := some "ML service unavailable" },
     setAutoPredictStatus st "skipped - ML service unavailable", tr0)
  else
    -- Get customers without predictions
    let customers := env.customersWithoutPredictions BATCH_SIZE
    let tr1 := tr0 ++ [.queryCustomersWithoutPredictions BATCH_SIZE]
    match customers with
    | [] =>
        ({ total := 0 }, setAutoPredictStatus st "completed - no new customers", tr1)
    | [single] =>
        -- Single customer - use single prediction
        let s0 : Summary := { total := 1 }
        let (r, st', tr') := predictSingleWithCache env st single.id true
        let s :=
          match r with
          | .err msg =>
              { s0 with failed := 1, errors := [(single.id, msg)] }
          | _ => { s0 with success := 1 }
        (s, setAutoPredictStatus st'
              ("completed - " ++ toString s.success ++ "/" ++ toString s.total ++
               " predicted"),
         tr1 ++ tr')
    | _ :: _ :: _ =>
        -- Use batch prediction for efficiency
        let s0 : Summary := { total := customers.length }
        match batchPredict env customers with
        | .ok predictions =>
            let tr2 := tr1 ++ [.gatewayBatch customers.length]
            match batchSaveLoop env customers predictions s0 st tr2 with
            | (some (s, st', tr'), _, _, _) =>
                (s, setAutoPredictStatus st'
                      ("completed - " ++ toString s.success ++ "/" ++
                       toString s.total ++ " predicted"),
                 tr')
            | (none, sPartial, st', tr') =>
                -- `predictions[i]` was `undefined`: the TypeError reaches the
                -- sweep's top-level catch, which reports it in the summary.
                let msg := "Cannot read properties of undefined (reading 'error')"
                ({ sPartial with error := some msg },
                 setAutoPredictStatus st' ("error - " ++ msg), tr')
        | .error _ =>
            -- Fallback to single predictions
            let tr2 := tr1 ++ [.gatewayBatch customers.length]
            let (s, st', tr') := fallbackLoop env customers s0 st tr2
            (s, setAutoPredictStatus st'
                  ("completed - " ++ toString s.success ++ "/" ++ toString s.total ++
                   " predicted"),
             tr')

/-- The sequence of outcomes the forced single-customer path yields when run
sequentially over a customer set, threading the cache state exactly as the
fallback loop does. -/
def individualOutcomes (env : Env) (st : CacheState) :
    List Customer → List SingleOutcome
  | [] => []
  | customer :: cs =>
      let (r, st', _) := predictSingleWithCache env st customer.id true
      r :: individualOutcomes env st' cs

/-! ### Scheduler (`src/jobs/predictionJob.js`)

The module-level job state (`isJobRunning`, `lastJobResult`, `totalRuns`,
`lastRunTime`) is a record; a cron fire and a manual trigger are functions
over it.  Timestamps are abstract naturals supplied by the caller. -/

/-- The result stored in `lastJobResult`: a completed sweep summary, or the
error record written when the awaited job rejects. -/
inductive JobResult where
  | completed (summary : Summary)
  | failed (errorMsg : String) (timestamp : Nat)
deriving DecidableEq, Repr

/-- The scheduler's module-level mutable state. -/
structure JobState where
  isJobRunning : Bool := false
  lastJobResult : Option JobResult := none
  totalRuns : Nat := 0
  lastRunTime : Option Nat := none
deriving DecidableEq, Repr

/-- One fire of the auto-predict cron job: skipped entirely when a run is in
flight, otherwise the sweep runs and the run statistics update (the embedded
sweep is total, so the `catch` branch writing a `failed` result is
unreachable); `finally` clears the flag. -/
def autoPredictJobTick (env : Env) (js : JobState) (cs : CacheState) (now : Nat) :
    JobState × CacheState × List Effect :=
  -- Prevent overlapping runs
  if js.isJobRunning then (js, cs, [])
  else
    let (summary, cs', tr) := autoPredictNewCustomers env cs
    ({ isJobRunning := false
       lastJobResult := some (.completed summary)
       totalRuns := js.totalRuns + 1
       lastRunTime := some now },
     cs', tr)

/-- The value returned by `triggerManualPredictJob`. -/
inductive ManualTriggerResult where
  /-- The `{error: 'Job already running', isRunning: true}` object. -/
  | busy (error : String) (isRunning : Bool)
  /-- The `{message, results}` object of a completed run. -/
  | completed (message : String) (results : Summary)
deriving DecidableEq, Repr

/-- `triggerManualPredictJob`: returns the busy object (without throwing and
without running anything) when a run is in flight, otherwise runs the sweep
under the same flag. -/
def triggerManualPredictJob (env : Env) (js : JobState) (cs : CacheState)
    (now : Nat) : ManualTriggerResult × JobState × CacheState × List Effect :=
  if js.isJobRunning then (.busy "Job already running" true, js, cs, [])
  else
    let (summary, cs', tr) := autoPredictNewCustomers env cs
    (.completed "Auto-predict job completed successfully" summary,
     { isJobRunning := false
       lastJobResult := some (.completed summary)
       totalRuns := js.totalRuns + 1
       lastRunTime := some now },
     cs', tr)

/-- An atomic scheduling event in the cooperative (event-loop) interleaving
model: a cron fire or manual trigger reaching the guard, or an in-flight
sweep completing (the `finally` clause). -/
inductive JobEvent where
  | tickFire
  | manualFire
  | runEnd
deriving DecidableEq, Repr

/-- The guard/flag dynamics abstracted from `autoPredictJob` and
`triggerManualPredictJob`: `running` is the `isJobRunning` flag and
`activeSweeps` counts sweeps started but not yet ended. -/
structure SchedState where
  running : Bool
  activeSweeps : Nat
deriving DecidableEq, Repr

/-- One scheduling event: a fire is dropped when the flag is set, otherwise
it sets the flag and starts a sweep; a sweep end clears the flag. -/
def schedStep (s : SchedState) : JobEvent → SchedState
  | .tickFire => if s.running then s else ⟨true, s.activeSweeps + 1⟩
  | .manualFire => if s.running then s else ⟨true, s.activeSweeps + 1⟩
  | .runEnd => ⟨false, s.activeSweeps - 1⟩

/-- Run a sequence of scheduling events from the process-start state. -/
def schedRun (events : List JobEvent) : SchedState :=
  events.foldl schedStep ⟨false, 0⟩

/-! ### Bulk customer insert (`src/services/customerService.js`,
`bulkCreateCustomers`)

The loop runs inside a single `BEGIN … COMMIT` on one client connection.
The PostgreSQL transaction semantics the claim turns on are modelled
explicitly: a statement error inside a transaction aborts it, every further
statement in the aborted transaction fails with
"current transaction is aborted", and a `COMMIT` issued in an aborted
transaction performs a rollback (discarding all of the transaction's rows)
without itself raising an error. -/

/-- Status of the client's current transaction. -/
inductive TxStatus where
  | idle
  | active
  | aborted
deriving DecidableEq, Repr

/-- The database connection state: durably committed row ids, rows inserted
by the open transaction, and the transaction status. -/
structure PgState where
  committed : List Nat := []
  txRows : List Nat := []
  txStatus : TxStatus := .idle
deriving DecidableEq, Repr

/-- A customer object passed to the bulk insert (a validated CSV row): its
CSV row number (`customer.row`, absent defaults through `|| i + 1`) and an
abstract payload tag identifying the row to the insert oracle. -/
structure BulkCustomer where
  row : Option Nat
  tag : Nat
deriving DecidableEq, Repr

/-- `customer.row || i + 1` (`0` is falsy in JavaScript). -/
def rowOrIndex (row : Option Nat) (i : Nat) : Nat :=
  match row with
  | some n => if n = 0 then i + 1 else n
  | none => i + 1

/-- Oracle for the INSERT statement's own outcome on a given customer: the
new row id, or a database error (e.g. a constraint violation). -/
structure DbEnv where
  insertOutcome : BulkCustomer → Except String Nat

/-- One `client.query(INSERT …)` inside the transaction: fails outright in
an aborted transaction; otherwise the oracle decides, and an error aborts
the transaction. -/
def pgInsert (db : DbEnv) (st : PgState) (c : BulkCustomer) :
    Except String Nat × PgState :=
  match st.txStatus with
  | .aborted =>
      (.error "current transaction is aborted, commands ignored until end of transaction block",
       st)
  | _ =>
    match db.insertOutcome c with
    | .ok id => (.ok id, { st with txRows := st.txRows ++ [id] })
    | .error e => (.error e, { st with txStatus := .aborted })

/-- An entry of the bulk result's `created` list. -/
structure CreatedEntry where
  row : Nat
  id : Nat
deriving DecidableEq, Repr

/-- An entry of the bulk result's `failed` list. -/
structure FailedEntry where
  row : Nat
  error : String
deriving DecidableEq, Repr

/-- The value `bulkCreateCustomers` returns. -/
structure BulkResult where
  created : List CreatedEntry := []
  failed : List FailedEntry := []
  successCount : Nat := 0
  failedCount : Nat := 0
deriving DecidableEq, Repr

/-- The insert loop: each row's error is caught and recorded, the loop
always continues to the next row. -/
def bulkInsertLoop (db : DbEnv) :
    List BulkCustomer → Nat → BulkResult → PgState → BulkResult × PgState
  | [], _, res, st => (res, st)
  | c :: cs, i, res, st =>
    match pgInsert db st c with
    | (.ok id, st') =>
        bulkInsertLoop db cs (i + 1)
          { res with created := res.created ++ [⟨rowOrIndex c.row i, id⟩],
                     successCount := res.successCount + 1 }
          st'
    | (.error e, st') =>
        bulkInsertLoop db cs (i + 1)
          { res with failed := res.failed ++ [⟨rowOrIndex c.row i, e⟩],
                     failedCount := res.failedCount + 1 }
          st'

/-- `COMMIT`: an active transaction's rows become durable; a `COMMIT` in an
aborted transaction is executed as a rollback, discarding them. -/
def pgCommit (st : PgState) : PgState :=
  match st.txStatus with
  | .active => { committed := st.committed ++ st.txRows, txRows := [], txStatus := .idle }
  | _ => { committed := st.committed, txRows := [], txStatus := .idle }

/-- `bulkCreateCustomers`: `BEGIN`, the per-row insert loop, `COMMIT`.
Returns the per-row result object and the final connection state. -/
def bulkCreateCustomers (db : DbEnv) (customers : List BulkCustomer)
    (st0 : PgState) : BulkResult × PgState :=
  let st1 : PgState := { st0 with txRows := [], txStatus := .active }
  let (res, st2) := bulkInsertLoop db customers 0 {} st1
  (res, pgCommit st2)

/-! ### Basic cache-map lemmas -/

/-- Looking up a key in a map filtered to exclude that key yields nothing. -/
theorem lookup_cacheDel (m : CacheState) (k : String) :
    (cacheDel m k).lookup k = none := by
  unfold cacheDel
  induction m with
  | nil => rfl
  | cons hd tl ih =>
      rcases hd with ⟨a, b⟩
      by_cases h : a = k
      · simpa [List.filter_cons, h] using ih
      · have hf : (decide ((a, b).1 ≠ k)) = true := by simp [h]
        have hk : (k == a) = false := by
          simp only [beq_eq_false_iff_ne]
          exact fun hh => h hh.symm
        rw [List.filter_cons, if_pos hf, List.lookup_cons, hk]
        exact ih

/-- After `removePendingPrediction`, the pending marker for that customer is
gone. -/
theorem isPending_remove (st : CacheState) (customerId : Nat) :
    isPendingPrediction (removePendingPrediction st customerId) customerId = false := by
  unfold isPendingPrediction removePendingPrediction cacheGet
  rw [lookup_cacheDel]
  rfl

/-! ### Claim theorems -/

/-- C3: whenever `predictSingleWithCache` terminates by throwing (customer
not found, gateway error, or persistence error), the pending marker for that
customer id has been removed from the cache state it leaves behind — the
marker never leaks on an exception path. -/
theorem pendingMarkerClearedOnThrow (env : Env) (st : CacheState)
    (customerId : Nat) (forceRefresh : Bool) (msg : String)
    (h : (predictSingleWithCache env st customerId forceRefresh).1 = .err msg) :
    isPendingPrediction
      (predictSingleWithCache env st customerId forceRefresh).2.1 customerId = false := by
  rcases hb : predictSingleBody env st customerId forceRefresh with ⟨r, st', tr⟩
  unfold predictSingleWithCache at h ⊢
  rw [hb] at h ⊢
  cases r with
  | ok r => simp at h
  | pendingRet => simp at h
  | err m => simpa using isPending_remove st' customerId

/-- Witness environment: the store has no customer rows and the ML service
is unreachable. -/
def envDown : Env where
  healthResp := .error ⟨some "ECONNREFUSED", "connect ECONNREFUSED 127.0.0.1:5000", none⟩
  customersWithoutPredictions := fun _ => [⟨1⟩, ⟨2⟩]
  getCustomerById := fun _ => none
  predictOne := fun _ =>
    .error "ML Service is not available. Please make sure the ML service is running."
  batchResp := fun _ =>
    .error ⟨some "ECONNREFUSED", "connect ECONNREFUSED 127.0.0.1:5000", none⟩
  createPred := fun _ _ => .error "db error"

/-- Witness for C3: a concrete not-found failure leaves no pending marker. -/
theorem pendingMarkerClearedOnThrow_witness :
    (predictSingleWithCache envDown [] 1 true).1 = .err "Customer 1 not found" ∧
    isPendingPrediction (predictSingleWithCache envDown [] 1 true).2.1 1 = false :=
  ⟨rfl, pendingMarkerClearedOnThrow envDown [] 1 true "Customer 1 not found" rfl⟩

/-- The guard-flag invariant: the number of in-flight sweeps matches the
`isJobRunning` flag. -/
def schedInvariant (s : SchedState) : Prop :=
  s.activeSweeps = if s.running then 1 else 0

/-- Every scheduling event preserves the guard-flag invariant. -/
theorem schedStep_inv (s : SchedState) (e : JobEvent) (h : schedInvariant s) :
    schedInvariant (schedStep s e) := by
  rcases s with ⟨running, active⟩
  rw [schedInvariant] at h
  cases e <;> cases running <;> simp_all [schedStep, schedInvariant]

/-- The invariant holds along every event sequence from process start. -/
theorem schedRun_inv (events : List JobEvent) : schedInvariant (schedRun events) := by
  rw [schedRun]
  generalize hs : (⟨false, 0⟩ : SchedState) = s
  have h0 : schedInvariant s := by rw [← hs]; rfl
  clear hs
  induction events generalizing s with
  | nil => exact h0
  | cons e es ih => exact ih _ (schedStep_inv s e h0)

/-- C4: with the `isJobRunning` flag set, a scheduled tick does nothing (no
sweep, no state change), and a manual trigger returns the
`{error: 'Job already running', isRunning: true}` object without calling the
sweep or the gateway and without touching `totalRuns`, `lastRunTime` or
`lastResult`; consequently, along any sequence of scheduling events, at most
one sweep is ever in flight. -/
theorem overlapGuard (env : Env) (js : JobState) (cs : CacheState) (now : Nat)
    (events : List JobEvent) (h : js.isJobRunning = true) :
    autoPredictJobTick env js cs now = (js, cs, []) ∧
    triggerManualPredictJob env js cs now =
      (.busy "Job already running" true, js, cs, []) ∧
    (schedRun events).activeSweeps ≤ 1 := by
  refine ⟨by simp [autoPredictJobTick, h], by simp [triggerManualPredictJob, h], ?_⟩
  have hinv := schedRun_inv events
  rw [schedInvariant] at hinv
  cases hrun : (schedRun events).running <;> simp [hrun] at hinv <;> omega

/-- Witness for C4: a concrete busy state is left untouched by a tick and a
manual trigger, and a concrete event sequence keeps at most one sweep. -/
theorem overlapGuard_witness :
    autoPredictJobTick envDown ⟨true, none, 3, some 7⟩ [] 9 =
      (⟨true, none, 3, some 7⟩, [], []) ∧
    triggerManualPredictJob envDown ⟨true, none, 3, some 7⟩ [] 9 =
      (.busy "Job already running" true, ⟨true, none, 3, some 7⟩, [], []) ∧
    (schedRun [.tickFire, .manualFire, .runEnd, .tickFire]).activeSweeps ≤ 1 :=
  overlapGuard envDown ⟨true, none, 3, some 7⟩ [] 9
    [.tickFire, .manualFire, .runEnd, .tickFire] rfl

/-- C1: when the gateway health check reports `status = 'ERROR'`, the sweep
returns the skip summary (`skipped = true`, reason "ML service unavailable",
zero success and failed counts), issues no query for customers without
predictions, and persists nothing. -/
theorem healthGateSkipsSweep (env : Env) (st : CacheState)
    (h : (checkMLServiceHealth env).status = "ERROR") :
    autoPredictNewCustomers env st =
      ({ total := 0, success := 0, failed := 0, skipped := .boolean true,
         errors := [], reason := some "ML service unavailable", error := none },
       setAutoPredictStatus (setAutoPredictStatus st "running")
         "skipped - ML service unavailable",
       [.healthProbe]) ∧
    (∀ limit, Effect.queryCustomersWithoutPredictions limit ∉
        (autoPredictNewCustomers env st).2.2) ∧
    (∀ customerId, Effect.persistPrediction customerId ∉
        (autoPredictNewCustomers env st).2.2) := by
  rcases henv : env.healthResp with e | u
  · -- the `/health` call failed, so the health status really is 'ERROR'
    have hml : checkMLServiceHealth env = ⟨"ERROR", "ML Service is not available"⟩ := by
      rw [checkMLServiceHealth, henv]
    have heq : autoPredictNewCustomers env st =
        ({ total := 0, success := 0, failed := 0, skipped := .boolean true,
           errors := [], reason := some "ML service unavailable", error := none },
         setAutoPredictStatus (setAutoPredictStatus st "running")
           "skipped - ML service unavailable",
         [.healthProbe]) := by
      unfold autoPredictNewCustomers
      rw [hml]
      rfl
    refine ⟨heq, ?_, ?_⟩
    · intro limit
      rw [heq]
      simp
    · intro customerId
      rw [heq]
      simp
  · -- a successful `/health` call reports 'OK', contradicting the hypothesis
    rw [checkMLServiceHealth, henv] at h
    simp at h

/-- Witness for C1: the concrete unreachable-service environment skips the
sweep as claimed. -/
theorem healthGateSkipsSweep_witness :
    (checkMLServiceHealth envDown).status = "ERROR" ∧
    (autoPredictNewCustomers envDown []).1 =
      { total := 0, success := 0, failed := 0, skipped := .boolean true,
        errors := [], reason := some "ML service unavailable", error := none } ∧
    Effect.queryCustomersWithoutPredictions BATCH_SIZE ∉
      (autoPredictNewCustomers envDown []).2.2 := by
  have h := healthGateSkipsSweep envDown [] rfl
  exact ⟨rfl, by rw [h.1], h.2.1 BATCH_SIZE⟩

/-- The two outcome counts of a list of single-call outcomes add up to its
length. -/
theorem countP_isErr_add (l : List SingleOutcome) :
    l.countP (fun o => !o.isErr) + l.countP (fun o => o.isErr) = l.length := by
  induction l with
  | nil => rfl
  | cons x xs ih => cases hx : x.isErr <;> simp [List.countP_cons, hx] <;> omega

/-- The sequential single-path outcome list has one outcome per customer. -/
theorem individualOutcomes_length (env : Env) (st : CacheState)
    (customers : List Customer) :
    (individualOutcomes env st customers).length = customers.length := by
  induction customers generalizing st with
  | nil => rfl
  | cons c cs ih =>
      rcases hp : predictSingleWithCache env st c.id true with ⟨r, st', tr'⟩
      rw [individualOutcomes, hp]
      simp [ih]

/-- The fallback loop's final counts are the starting counts plus the counts
of non-throwing and throwing outcomes of the sequential forced single-path
calls; the `total` field is untouched. -/
theorem fallbackLoop_counts (env : Env) (customers : List Customer)
    (s : Summary) (st : CacheState) (tr : List Effect) :
    (fallbackLoop env customers s st tr).1.success =
      s.success + (individualOutcomes env st customers).countP (fun o => !o.isErr) ∧
    (fallbackLoop env customers s st tr).1.failed =
      s.failed + (individualOutcomes env st customers).countP (fun o => o.isErr) ∧
    (fallbackLoop env customers s st tr).1.total = s.total := by
  induction customers generalizing s st tr with
  | nil => simp [fallbackLoop, individualOutcomes]
  | cons c cs ih =>
      rcases hp : predictSingleWithCache env st c.id true with ⟨r, st', tr'⟩
      rw [fallbackLoop, individualOutcomes, hp]
      cases r with
      | err m =>
          have h := ih { s with failed := s.failed + 1,
                                errors := s.errors ++ [(c.id, m)] } st' (tr ++ tr')
          refine ⟨?_, ?_, ?_⟩ <;>
            simp only [List.countP_cons, SingleOutcome.isErr, h.1, h.2.1, h.2.2] <;>
            simp <;> omega
      | ok r =>
          have h := ih { s with success := s.success + 1 } st' (tr ++ tr')
          refine ⟨?_, ?_, ?_⟩ <;>
            simp only [List.countP_cons, SingleOutcome.isErr, h.1, h.2.1, h.2.2] <;>
            simp <;> omega
      | pendingRet =>
          have h := ih { s with success := s.success + 1 } st' (tr ++ tr')
          refine ⟨?_, ?_, ?_⟩ <;>
            simp only [List.countP_cons, SingleOutcome.isErr, h.1, h.2.1, h.2.2] <;>
            simp <;> omega

/-- C2: when the sweep's set has more than one customer and the batch
gateway call itself throws, every customer is retried individually through
the forced cached single-customer path, and the sweep's final `success` and
`failed` counts are exactly the counts of individually non-throwing and
throwing customers (never a blanket failure). -/
theorem batchThrowFallsBackToSingles (env : Env) (st : CacheState)
    (c1 c2 : Customer) (rest : List Customer) (msg : String)
    (hcust : env.customersWithoutPredictions BATCH_SIZE = c1 :: c2 :: rest)
    (hhealth : (checkMLServiceHealth env).status = "OK")
    (hbatch : batchPredict env (c1 :: c2 :: rest) = .error msg) :
    (autoPredictNewCustomers env st).1.success =
      (individualOutcomes env (setAutoPredictStatus st "running")
        (c1 :: c2 :: rest)).countP (fun o => !o.isErr) ∧
    (autoPredictNewCustomers env st).1.failed =
      (individualOutcomes env (setAutoPredictStatus st "running")
        (c1 :: c2 :: rest)).countP (fun o => o.isErr) ∧
    (autoPredictNewCustomers env st).1.success +
        (autoPredictNewCustomers env st).1.failed = (c1 :: c2 :: rest).length ∧
    (autoPredictNewCustomers env st).1.total = (c1 :: c2 :: rest).length := by
  rcases henv : env.healthResp with e | u
  · rw [checkMLServiceHealth, henv] at hhealth
    simp at hhealth
  · have hml : checkMLServiceHealth env = ⟨"OK", "ML Service is running"⟩ := by
      rw [checkMLServiceHealth, henv]
    have hcnt := fallbackLoop_counts env (c1 :: c2 :: rest)
      { total := (c1 :: c2 :: rest).length } (setAutoPredictStatus st "running")
      ([Effect.healthProbe] ++ [Effect.queryCustomersWithoutPredictions BATCH_SIZE] ++
       [Effect.gatewayBatch (c1 :: c2 :: rest).length])
    rcases hf : fallbackLoop env (c1 :: c2 :: rest)
        { total := (c1 :: c2 :: rest).length } (setAutoPredictStatus st "running")
        ([Effect.healthProbe] ++ [Effect.queryCustomersWithoutPredictions BATCH_SIZE] ++
         [Effect.gatewayBatch (c1 :: c2 :: rest).length]) with ⟨sres, stres, trres⟩
    rw [hf] at hcnt
    have heq : (autoPredictNewCustomers env st).1 = sres := by
      unfold autoPredictNewCustomers
      rw [hml]
      simp only [hcust, hbatch, hf]
      rfl
    rw [heq]
    simp only [Nat.zero_add] at hcnt
    refine ⟨hcnt.1, hcnt.2.1, ?_, hcnt.2.2⟩
    rw [hcnt.1, hcnt.2.1]
    simpa [individualOutcomes_length]
      using countP_isErr_add
        (individualOutcomes env (setAutoPredictStatus st "running") (c1 :: c2 :: rest))

/-- Witness environment for C2: health is fine, two unscored customers, the
batch endpoint is unreachable, customer 1 exists in the store while
customer 2 does not. -/
def envBatchThrow : Env where
  healthResp := .ok ()
  customersWithoutPredictions := fun _ => [⟨1⟩, ⟨2⟩]
  getCustomerById := fun customerId => if customerId = 1 then some ⟨1⟩ else none
  predictOne := fun _ => .ok ⟨mkRat (Int.ofNat 4) 5, true, "1.0"⟩
  batchResp := fun _ => .error ⟨some "ECONNREFUSED", "connect ECONNREFUSED 127.0.0.1:5000", none⟩
  createPred := fun customerId p =>
    .ok ⟨customerId, p.probability, p.willSubscribe, p.modelVersion, 0⟩

/-- Witness for C2: with the batch call throwing, the individual retries
give one success (customer 1) and one failure (customer 2), reflected
exactly in the sweep summary. -/
theorem batchThrowFallsBackToSingles_witness :
    (autoPredictNewCustomers envBatchThrow []).1.success = 1 ∧
    (autoPredictNewCustomers envBatchThrow []).1.failed = 1 ∧
    (autoPredictNewCustomers envBatchThrow []).1.total = 2 := by
  have h := batchThrowFallsBackToSingles envBatchThrow [] ⟨1⟩ ⟨2⟩ []
    "ML Service is not available. Please make sure the ML service is running."
    rfl rfl rfl
  exact ⟨h.1.trans (by decide), h.2.1.trans (by decide), h.2.2.2⟩

/-- C9: `batchPredict` maps the wire response positionally — when the HTTP
call returns a predictions array of the input's length, the result has the
same length and order, each position carrying the transformed item (a
prediction with its optional per-item error field), and per-item errors
never fail the whole call; only a failure of the call itself (e.g. a
connection error) makes `batchPredict` throw. -/
theorem batchPredictPositional (env : Env) (customers : List Customer)
    (resp : List WirePrediction) (e : HttpError) :
    (env.batchResp customers = .ok resp →
      batchPredict env customers = .ok (resp.map transformWirePrediction) ∧
      (∀ i, (resp.map transformWirePrediction).get? i =
        (resp.get? i).map transformWirePrediction) ∧
      (resp.length = customers.length →
        (resp.map transformWirePrediction).length = customers.length)) ∧
    (env.batchResp customers = .error e →
      batchPredict env customers =
        .error (mlErrorMessage "Batch prediction failed: " e)) := by
  constructor
  · intro hok
    refine ⟨by rw [batchPredict, hok], fun i => ?_, fun hlen => by simpa using hlen⟩
    exact (List.get?_map transformWirePrediction resp i)
  · intro herr
    rw [batchPredict, herr]

/-- Witness environment for C9: a two-customer batch whose wire response has
one good item and one per-item error. -/
def envBatchOk : Env where
  healthResp := .ok ()
  customersWithoutPredictions := fun _ => [⟨1⟩, ⟨2⟩]
  getCustomerById := fun _ => none
  predictOne := fun _ => .ok ⟨mkRat (Int.ofNat 4) 5, true, "1.0"⟩
  batchResp := fun _ =>
    .ok [⟨mkRat (Int.ofNat 7) 10, true, some "2.1", none⟩,
         ⟨0, false, none, some "bad features"⟩]
  createPred := fun customerId p =>
    .ok ⟨customerId, p.probability, p.willSubscribe, p.modelVersion, 0⟩

/-- Witness for C9: the concrete two-item response maps positionally, with
the second item's error carried per-item rather than failing the call. -/
theorem batchPredictPositional_witness :
    batchPredict envBatchOk [⟨1⟩, ⟨2⟩] =
      .ok [⟨mkRat (Int.ofNat 7) 10, true, "2.1", none⟩,
           ⟨0, false, "1.0", some "bad features"⟩] ∧
    batchPredict envDown [⟨1⟩, ⟨2⟩] =
      .error "ML Service is not available. Please make sure the ML service is running." := by
  constructor
  · exact ((batchPredictPositional envBatchOk [⟨1⟩, ⟨2⟩]
      [⟨mkRat (Int.ofNat 7) 10, true, some "2.1", none⟩,
       ⟨0, false, none, some "bad features"⟩]
      ⟨none, "", none⟩).1 rfl).1.trans rfl
  · exact ((batchPredictPositional envDown [⟨1⟩, ⟨2⟩] []
      ⟨some "ECONNREFUSED", "connect ECONNREFUSED 127.0.0.1:5000", none⟩).2 rfl).trans rfl

/-- The insert oracle of the C8 failing input: the second row violates a
constraint, every other row is accepted. -/
def dbEnvRowTwoFails : DbEnv where
  insertOutcome := fun c =>
    if c.tag = 2 then .error "duplicate key value violates unique constraint"
    else .ok (100 + c.tag)

/-- C8 (failing input): with three valid rows of which the second violates a
database constraint, `bulkCreateCustomers` reports row 1 as created and rows
2 and 3 as failed (row 3 only because the transaction was already aborted),
yet after its `COMMIT` **nothing** is persisted: the single wrapping
transaction rolls back the sibling row the result object reports as
created.  This contradicts the claimed row-independent persistence. -/
theorem bulkInsertRollsBackSiblings :
    bulkCreateCustomers dbEnvRowTwoFails
      [⟨some 2, 1⟩, ⟨some 3, 2⟩, ⟨some 4, 3⟩] {} =
      ({ created := [⟨2, 101⟩],
         failed :=
           [⟨3, "duplicate key value violates unique constraint"⟩,
            ⟨4, "current transaction is aborted, commands ignored until end of transaction block"⟩],
         successCount := 1, failedCount := 2 },
       { committed := [], txRows := [], txStatus := .idle }) := by
  decide

/-! ### Record-field lemmas -/

/-- Updating an existing key changes exactly its binding. -/
theorem lookup_map_update (r : JSRecord) (k : String) (v : JSValue)
    (h : (r.lookup k).isSome) :
    (r.map (fun p => if p.1 = k then (k, v) else p)).lookup k = some v := by
  induction r with
  | nil => simp at h
  | cons hd tl ih =>
      rcases hd with ⟨a, b⟩
      by_cases ha : a = k
      · subst ha
        simp [List.lookup_cons]
      · have hk : (k == a) = false := by
          simp only [beq_eq_false_iff_ne]
          exact fun hh => ha hh.symm
        rw [List.lookup_cons, hk] at h
        rw [List.map_cons, if_neg (by simpa using ha), List.lookup_cons, hk]
        exact ih h

/-- Appending a fresh key makes it found. -/
theorem lookup_append_fresh (r : JSRecord) (k : String) (v : JSValue)
    (h : r.lookup k = none) : (r ++ [(k, v)]).lookup k = some v := by
  induction r with
  | nil => simp [List.lookup_cons]
  | cons hd tl ih =>
      rcases hd with ⟨a, b⟩
      by_cases ha : a = k
      · subst ha
        simp [List.lookup_cons] at h
      · have hk : (k == a) = false := by
          simp only [beq_eq_false_iff_ne]
          exact fun hh => ha hh.symm
        rw [List.lookup_cons, hk] at h
        rw [List.cons_append, List.lookup_cons, hk]
        exact ih h

/-- `setField` makes the written key read back the written value. -/
theorem lookup_setField_self (r : JSRecord) (k : String) (v : JSValue) :
    (setField r k v).lookup k = some v := by
  unfold setField
  by_cases h : (r.lookup k).isSome
  · rw [if_pos h]
    exact lookup_map_update r k v h
  · rw [if_neg h]
    exact lookup_append_fresh r k v (by rwa [Option.not_isSome_iff_eq_none] at h)

/-- `setField` leaves every other key's binding unchanged. -/
theorem lookup_setField_ne (r : JSRecord) (k k' : String) (v : JSValue)
    (h : k ≠ k') : (setField r k' v).lookup k = r.lookup k := by
  unfold setField
  have hk : (k == k') = false := by simpa only [beq_eq_false_iff_ne] using h
  by_cases hmem : (r.lookup k').isSome
  · rw [if_pos hmem]
    clear hmem
    induction r with
    | nil => rfl
    | cons hd tl ih =>
        rcases hd with ⟨a, b⟩
        by_cases ha : a = k'
        · subst ha
          rw [List.map_cons, if_pos rfl, List.lookup_cons, List.lookup_cons, hk]
          exact ih
        · rw [List.map_cons, if_neg (by simpa using ha), List.lookup_cons,
              List.lookup_cons]
          cases hka : (k == a) with
          | true => rfl
          | false => exact ih
  · rw [if_neg hmem]
    clear hmem
    induction r with
    | nil => simp [List.lookup_cons, hk]
    | cons hd tl ih =>
        rcases hd with ⟨a, b⟩
        rw [List.cons_append, List.lookup_cons, List.lookup_cons]
        cases hka : (k == a) with
        | true => rfl
        | false => exact ih

/-- `getField` after writing the same key. -/
theorem getField_setField_self (r : JSRecord) (k : String) (v : JSValue) :
    getField (setField r k v) k = v := by
  rw [getField, lookup_setField_self]
  rfl

/-- `getField` after writing a different key. -/
theorem getField_setField_ne (r : JSRecord) (k k' : String) (v : JSValue)
    (h : k ≠ k') : getField (setField r k' v) k = getField r k := by
  rw [getField, lookup_setField_ne r k k' v h, getField]

/-- The processed record's balance is the coerced balance of the original
record — always a finite number. -/
theorem processRecord_balance (record : JSRecord) :
    getField (processRecord record) "balance" = .num (coerceBalance record) := by
  unfold processRecord
  rw [getField_setField_ne _ _ _ _ (by decide), getField_setField_ne _ _ _ _ (by decide),
      getField_setField_ne _ _ _ _ (by decide), getField_setField_ne _ _ _ _ (by decide),
      getField_setField_ne _ _ _ _ (by decide), getField_setField_ne _ _ _ _ (by decide),
      getField_setField_ne _ _ _ _ (by decide), getField_setField_self]

/-- C7: balance coercion is total — the processed record always carries a
finite numeric balance, so the validator's balance check never produces an
error — and the specific coercions hold: `""`, `null`, `"NaN"` and a missing
balance column coerce to 0, the string "1500.50" coerces to the number
1500.50, and a finite numeric balance passes through unchanged. -/
theorem balanceCoercionTotal (record : JSRecord) (q : ℚ) :
    getField (processRecord record) "balance" = .num (coerceBalance record) ∧
    balanceErrors (processRecord record) = [] ∧
    coerceBalance [("balance", .str "")] = 0 ∧
    coerceBalance [("balance", .null)] = 0 ∧
    coerceBalance [("balance", .str "NaN")] = 0 ∧
    coerceBalance [] = 0 ∧
    coerceBalance [("balance", .str "1500.50")] = 1500.50 ∧
    coerceBalance [("balance", .num q)] = q := by
  refine ⟨processRecord_balance record, ?_, by decide, by decide, by decide, by decide,
          ?_, rfl⟩
  · unfold balanceErrors
    rw [processRecord_balance record]
    simp [typeofNumber, isNaNjs]
  · have h : coerceBalance [("balance", .str "1500.50")] = mkRat (Int.ofNat 3001) 2 := rfl
    rw [h, Rat.mkRat_eq_div]
    norm_num

/-- Counting positionally-enumerated elements by a property of the element
equals counting the elements themselves. -/
theorem countP_enumFrom {α : Type} (l : List α) (idx : Nat) (p : α → Bool) :
    (List.enumFrom idx l).countP (fun q => p q.2) = l.countP p := by
  induction l generalizing idx with
  | nil => rfl
  | cons x xs ih => simp [List.enumFrom, List.countP_cons, ih]

/-- A boolean property and its negation partition a list. -/
theorem countP_add_countP_not {α : Type} (l : List α) (p : α → Bool) :
    l.countP p + l.countP (fun a => !p a) = l.length := by
  induction l with
  | nil => rfl
  | cons x xs ih => cases hx : p x <;> simp [List.countP_cons, hx] <;> omega

/-- The classification loop's output characterized: the valid list holds the
processed records of exactly the rows passing validation, the invalid list
the originals of exactly those failing, each with the row number derived
from its position. -/
theorem classifyRecords_eq (records : List JSRecord) (idx : Nat) :
    classifyRecords records idx =
      (((List.enumFrom idx records).filter
          (fun p => (validateCustomerData (processRecord p.2) false).isValid)).map
         (fun p => ⟨processRecord p.2, p.1 + 2⟩),
       ((List.enumFrom idx records).filter
          (fun p => !(validateCustomerData (processRecord p.2) false).isValid)).map
         (fun p => ⟨p.1 + 2, p.2, (validateCustomerData (processRecord p.2) false).errors⟩)) := by
  induction records generalizing idx with
  | nil => rfl
  | cons r rs ih =>
      simp only [classifyRecords, ih (idx + 1)]
      cases hv : (validateCustomerData (processRecord r) false).isValid <;>
        simp [List.enumFrom, List.filter_cons, hv]

/-- C5: `validateCSVRecords` classifies every record into exactly one of the
two lists — the valid list has one entry per passing record, the invalid
list one entry per failing record — so with K failing rows out of N the
result is N−K valid entries, K invalid entries, and
`valid.length + invalid.length = totalRecords` always holds. -/
theorem rowPartitionCounts (records : List JSRecord) :
    validateCSVRecords records =
      ⟨((List.enumFrom 0 records).filter
          (fun p => (validateCustomerData (processRecord p.2) false).isValid)).map
         (fun p => ⟨processRecord p.2, p.1 + 2⟩),
       ((List.enumFrom 0 records).filter
          (fun p => !(validateCustomerData (processRecord p.2) false).isValid)).map
         (fun p => ⟨p.1 + 2, p.2, (validateCustomerData (processRecord p.2) false).errors⟩),
       records.length⟩ ∧
    (validateCSVRecords records).valid.length =
      records.countP (fun r => (validateCustomerData (processRecord r) false).isValid) ∧
    (validateCSVRecords records).invalid.length =
      records.countP (fun r => !(validateCustomerData (processRecord r) false).isValid) ∧
    (validateCSVRecords records).valid.length +
        (validateCSVRecords records).invalid.length =
      (validateCSVRecords records).totalRecords ∧
    (validateCSVRecords records).totalRecords = records.length ∧
    (validateCSVRecords records).valid.length =
      records.length -
        records.countP (fun r => !(validateCustomerData (processRecord r) false).isValid) := by
  have hcl := classifyRecords_eq records 0
  have heq : validateCSVRecords records =
      ⟨((List.enumFrom 0 records).filter
          (fun p => (validateCustomerData (processRecord p.2) false).isValid)).map
         (fun p => ⟨processRecord p.2, p.1 + 2⟩),
       ((List.enumFrom 0 records).filter
          (fun p => !(validateCustomerData (processRecord p.2) false).isValid)).map
         (fun p => ⟨p.1 + 2, p.2, (validateCustomerData (processRecord p.2) false).errors⟩),
       records.length⟩ := by
    unfold validateCSVRecords
    rw [hcl]
  have hvlen : (validateCSVRecords records).valid.length =
      records.countP (fun r => (validateCustomerData (processRecord r) false).isValid) := by
    rw [heq]
    simp only [List.length_map, ← List.countP_eq_length_filter]
    exact countP_enumFrom records 0
      (fun r => (validateCustomerData (processRecord r) false).isValid)
  have hilen : (validateCSVRecords records).invalid.length =
      records.countP (fun r => !(validateCustomerData (processRecord r) false).isValid) := by
    rw [heq]
    simp only [List.length_map, ← List.countP_eq_length_filter]
    exact countP_enumFrom records 0
      (fun r => !(validateCustomerData (processRecord r) false).isValid)
  have hsum := countP_add_countP_not records
    (fun r => (validateCustomerData (processRecord r) false).isValid)
  have hsum' : records.countP
        (fun r => (validateCustomerData (processRecord r) false).isValid) +
      records.countP
        (fun r => !(validateCustomerData (processRecord r) false).isValid) =
      records.length := hsum
  refine ⟨heq, hvlen, hilen, ?_, by rw [heq], ?_⟩
  · rw [hvlen, hilen, heq]
    exact hsum'
  · rw [hvlen]
    omega

/-- No required column is the optional balance column. -/
theorem required_ne_balance {c : String} (h : c ∈ REQUIRED_COLUMNS) :
    c ≠ "balance" := by
  fin_cases h <;> decide

/-- A key of a zipped header/cells record comes from the header. -/
theorem mem_header_of_mem_keys {c : String} {cols cells : List String}
    (h : c ∈ recordKeys ((cols.zip cells).map (fun p => (p.1, castCell p.2)))) :
    c ∈ cols := by
  rw [recordKeys, List.map_map] at h
  rcases List.mem_map.1 h with ⟨p, hp, hpc⟩
  rcases p with ⟨a, b⟩
  rcases hpc
  exact (List.mem_zip hp).1

/-- Adding the optional columns cannot introduce a required column's key. -/
theorem keys_ensureOptional {c : String} (r : JSRecord) (hc : c ≠ "balance")
    (h : c ∉ recordKeys r) : c ∉ recordKeys (ensureOptionalColumns r) := by
  unfold ensureOptionalColumns OPTIONAL_COLUMNS
  cases hb : hasKey r "balance" with
  | true => simpa [List.foldl, hb] using h
  | false =>
      simp only [List.foldl, hb, Bool.false_eq_true, if_false]
      intro hmem
      rw [recordKeys, List.map_append] at hmem
      rcases List.mem_append.1 hmem with h1 | h1
      · exact h h1
      · simp at h1
        exact hc h1

/-- A column absent from a file's header is absent from the key set of the
first parsed record. -/
theorem parseCSV_keys (text : String) (first : JSRecord) (rest : List JSRecord)
    (hp : parseCSV text = first :: rest) {c : String} (hc : c ≠ "balance")
    (hh : c ∉ headerCols text) : c ∉ recordKeys first := by
  unfold headerCols at hh
  rcases hsplit : (jsSplit '\n' text).filter (fun l => jsTrim l ≠ "") with
    _ | ⟨header, dataLines⟩
  · rw [parseCSV, parseCSVRaw, hsplit] at hp
    simp at hp
  · rw [hsplit] at hh
    replace hh : c ∉ parseLine header := hh
    rcases dataLines with _ | ⟨line, restLines⟩
    · rw [parseCSV, parseCSVRaw, hsplit] at hp
      simp at hp
    · have hform : parseCSV text =
          ensureOptionalColumns (((parseLine header).zip (parseLine line)).map
            (fun p => (p.1, castCell p.2))) ::
          (restLines.map (fun l =>
            ((parseLine header).zip (parseLine l)).map
              (fun p => (p.1, castCell p.2)))).map ensureOptionalColumns := by
        unfold parseCSV parseCSVRaw
        rw [hsplit]
        rfl
      rw [hform] at hp
      injection hp with h1 h2
      rw [← h1]
      exact keys_ensureOptional _ hc (fun hmem => hh (mem_header_of_mem_keys hmem))

/-- C6: a CSV file whose header lacks required columns fails structural
validation with a single error naming every missing required column, and no
row validation runs; a file with zero parsed records likewise fails with the
empty-file error before any row validation. -/
theorem csvStructuralFailures (text : String) (c : String)
    (hreq : c ∈ REQUIRED_COLUMNS) :
    (parseCSV text ≠ [] → c ∉ headerCols text →
       (parseAndValidateCSV text).success = false ∧
       (parseAndValidateCSV text).rowValidationRan = false ∧
       ∃ missing, missing ≠ [] ∧
         (parseAndValidateCSV text).error = some (missingColumnsMsg missing) ∧
         ∀ c' ∈ REQUIRED_COLUMNS, c' ∉ headerCols text → c' ∈ missing) ∧
    (parseCSV text = [] →
       parseAndValidateCSV text = ⟨false, some "CSV file is empty", none, false⟩) := by
  constructor
  · intro hne hmiss
    rcases hp : parseCSV text with _ | ⟨first, rest⟩
    · exact absurd hp hne
    · have hmissingC : ∀ c' ∈ REQUIRED_COLUMNS, c' ∉ headerCols text →
          c' ∈ missingColumnsOf first := by
        intro c' hc' hh
        have hkeys : c' ∉ recordKeys first :=
          parseCSV_keys text first rest hp (required_ne_balance hc') hh
        rw [missingColumnsOf, List.mem_filter]
        exact ⟨hc', by simp [hkeys]⟩
      have hmem : c ∈ missingColumnsOf first := hmissingC c hreq hmiss
      have hnonempty : missingColumnsOf first ≠ [] := by
        intro h0
        rw [h0] at hmem
        simp at hmem
      have hsv : validateCSVStructure (first :: rest) =
          ⟨false, some (missingColumnsMsg (missingColumnsOf first))⟩ := by
        show (if missingColumnsOf first ≠ [] then
               ({ isValid := false,
                  error := some (missingColumnsMsg (missingColumnsOf first)) } :
                 StructureResult)
             else ⟨true, none⟩) =
            ⟨false, some (missingColumnsMsg (missingColumnsOf first))⟩
        rw [if_pos hnonempty]
      have hres : parseAndValidateCSV text =
          ⟨false, some (missingColumnsMsg (missingColumnsOf first)), none, false⟩ := by
        simp only [parseAndValidateCSV, hp, hsv]
        rfl
      rw [hres]
      exact ⟨rfl, rfl, missingColumnsOf first, hnonempty, rfl, hmissingC⟩
  · intro hp
    unfold parseAndValidateCSV
    rw [hp]
    rfl

/-- Witness for C6: a header with only `name` and `age` fails naming the 13
missing required columns with no row validation, and an empty file fails
with the empty-file error. -/
theorem csvStructuralFailures_witness :
    (parseAndValidateCSV "name,age\nJohn,30").success = false ∧
    (parseAndValidateCSV "name,age\nJohn,30").rowValidationRan = false ∧
    (∃ missing, (parseAndValidateCSV "name,age\nJohn,30").error =
        some (missingColumnsMsg missing) ∧ "job" ∈ missing) ∧
    parseAndValidateCSV "" = ⟨false, some "CSV file is empty", none, false⟩ := by
  have h := (csvStructuralFailures "name,age\nJohn,30" "job" (by decide)).1
    (by decide) (by decide)
  rcases h.2.2 with ⟨missing, _, herr, hall⟩
  exact ⟨h.1, h.2.1, ⟨missing, herr, hall "job" (by decide) (by decide)⟩,
         (csvStructuralFailures "" "job" (by decide)).2 (by decide)⟩

set_option maxHeartbeats 2000000 in
/-- C10: round-trip at the pipeline's own interface — parsing and validating
the generated CSV template succeeds structurally and row-wise, with exactly
3 valid rows, 0 invalid rows and `totalRecords = 3`. -/
theorem templateRoundTrip :
    (parseAndValidateCSV generateCSVTemplate).success = true ∧
    (parseAndValidateCSV generateCSVTemplate).error = none ∧
    (parseAndValidateCSV generateCSVTemplate).rowValidationRan = true ∧
    ((parseAndValidateCSV generateCSVTemplate).data.map
      (fun d => (d.valid.length, d.invalid.length, d.totalRecords))) = some (3, 0, 3) := by
  refine ⟨by decide, by decide, by decide, by decide⟩

end Backend
